import Mathlib

/-!
Shallow embedding of the AirPodsDesktop core (Source/Core/AirPods.cpp):
the advertisement decoder wrapper, the plausibility filter
(StateManager::IsPossibleDesiredAdv), the reconciliation engine
(StateManager::UpdateAdv / UpdateState / ResetAll / DoLost / DoStateReset)
and the orchestration entry point (Manager::OnAdvertisementReceived).

Conventions: C++ std::optional becomes Option, machine integers become
Int/Nat (RSSI values are small dBm-like numbers, no overflow is possible),
timestamps become Nat, and the 10-second timers become explicit deadline
fields updated by the same calls that call Timer::Reset in the source.
Functions that in the source only log keep no trace of the log; calls that
notify the main window (DisconnectSafely) are reflected as a Bool in the
return value.  Fatal assertions (APD_ASSERT) are reflected by an Option
result: none is the crash.
-/

namespace AirPodsCore

/-- Model enum from AirPods.h; `Unknown` is the sentinel used by the merge
availability test.  The concrete non-Unknown constructors stand for the
real models (AirPods 1/2/Pro, ...). -/
inductive Model where
  | Unknown
  | AirPods1
  | AirPods2
  | AirPodsPro
deriving DecidableEq, Repr

/-- Side enum: which physical earbud broadcast the packet. -/
inductive Side where
  | Left
  | Right
deriving DecidableEq, Repr

/-- Per-pod decoded fields.  `battery = none` models Battery unavailable;
an available value is stored already scaled (percent, steps of 10). -/
structure Pod where
  battery : Option Nat
  isCharging : Bool
  isInEar : Bool
deriving DecidableEq, Repr

/-- Case decoded fields. -/
structure CaseBox where
  battery : Option Nat
  isCharging : Bool
  isBothPodsInCase : Bool
  isLidOpened : Bool
deriving DecidableEq, Repr

/-- Pair of pods, mirroring Helper::Sides over Pod. -/
structure Pods where
  left : Pod
  right : Pod
deriving DecidableEq, Repr

/-- Advertisement::AdvState: the decoded snapshot carried by one packet. -/
structure AdvState where
  model : Model
  side : Side
  pods : Pods
  caseBox : CaseBox
deriving DecidableEq, Repr

/-- Default-constructed Pod (C++ member initializers: Battery unavailable,
flags false). -/
def defaultPod : Pod := { battery := none, isCharging := false, isInEar := false }

/-- Default-constructed CaseBox. -/
def defaultCaseBox : CaseBox :=
  { battery := none, isCharging := false, isBothPodsInCase := false, isLidOpened := false }

/-- Default-constructed AdvState, as produced by the default constructor of
Helper::Sides in StateManager::UpdateState when a side cache is empty. -/
def defaultAdvState : AdvState :=
  { model := Model.Unknown, side := Side.Left
    pods := { left := defaultPod, right := defaultPod }
    caseBox := defaultCaseBox }

/-- The merged canonical State.  displayName is assigned by the
Orchestrator on the event copy only and never takes part in the
StateManager comparison, so it is omitted here. -/
structure State where
  model : Model
  pods : Pods
  caseBox : CaseBox
deriving DecidableEq, Repr

/-- Details::Advertisement after construction: the raw-packet metadata the
StateManager reads (address, rssi) plus the decoded snapshot. -/
structure Advertisement where
  address : Nat
  rssi : Int
  state : AdvState
deriving DecidableEq, Repr

/-- StateManager::UpdateEvent. -/
structure UpdateEvent where
  oldState : Option State
  newState : State
deriving DecidableEq, Repr

/-- StateManager fields: the two side caches (advertisement, receipt
time), the canonical cached state, the RSSI floor, and the three timers,
modelled as their next firing deadlines (Timer::Reset at time `now` sets
the deadline to `now + timerInterval`). -/
structure SMState where
  advLeft : Option (Advertisement × Nat)
  advRight : Option (Advertisement × Nat)
  cachedState : Option State
  rssiMin : Int
  lostDeadline : Nat
  leftDeadline : Nat
  rightDeadline : Nat
deriving DecidableEq, Repr

/-- The 10s interval all three timers are started with. -/
def timerInterval : Nat := 10

/-- `side == Side::Left ? _adv.left : _adv.right` -/
def sideCache (s : SMState) : Side → Option (Advertisement × Nat)
  | Side.Left => s.advLeft
  | Side.Right => s.advRight

/-- The opposite side. -/
def oppositeSide : Side → Side
  | Side.Left => Side.Right
  | Side.Right => Side.Left

/-- Battery delta computed in IsPossibleDesiredAdv: the absolute
difference of the stored values when both are available, otherwise the
initial value 0. -/
def batteryDiff : Option Nat → Option Nat → Nat
  | some a, some b => ((a : Int) - (b : Int)).natAbs
  | _, _ => 0

/-- Same-side part of StateManager::IsPossibleDesiredAdv: runs only when
the cached same-side advertisement exists and its address differs from the
incoming one (address rotation); then the model must match, each battery
delta must be at most 1, and the RSSI delta must be at most 50. -/
def sameSideCheck (s : SMState) (adv : Advertisement) : Bool :=
  match sideCache s adv.state.side with
  | none => true
  | some (last, _) =>
    if last.address = adv.address then true
    else if adv.state.model ≠ last.state.model then false
    else if batteryDiff adv.state.pods.left.battery last.state.pods.left.battery > 1 ∨
            batteryDiff adv.state.pods.right.battery last.state.pods.right.battery > 1 ∨
            batteryDiff adv.state.caseBox.battery last.state.caseBox.battery > 1 then false
    else if (adv.rssi - last.rssi).natAbs > 50 then false
    else true

/-- Other-side part of StateManager::IsPossibleDesiredAdv: when the
opposite side has a cached advertisement, the RSSI delta against it must
be at most 50. -/
def otherSideCheck (s : SMState) (adv : Advertisement) : Bool :=
  match sideCache s (oppositeSide adv.state.side) with
  | none => true
  | some (last, _) => !((adv.rssi - last.rssi).natAbs > 50)

/-- StateManager::IsPossibleDesiredAdv: the RSSI floor gate, then the
same-side (address rotation) checks, then the other-side RSSI check; each
early `return false` of the source is a failed conjunct. -/
def isPossibleDesiredAdv (s : SMState) (adv : Advertisement) : Bool :=
  !(adv.rssi < s.rssiMin) && sameSideCheck s adv && otherSideCheck s adv

/-- StateManager::UpdateAdv: resets the lost timer, stores (adv, now)
into the cache of the broadcasting side and resets that side's expiry
timer. -/
def updateAdv (s : SMState) (adv : Advertisement) (now : Nat) : SMState :=
  let s1 := { s with lostDeadline := now + timerInterval }
  match adv.state.side with
  | Side.Left =>
    { s1 with advLeft := some (adv, now), leftDeadline := now + timerInterval }
  | Side.Right =>
    { s1 with advRight := some (adv, now), rightDeadline := now + timerInterval }

/-- PICK_SIDE of StateManager::UpdateState: given both sides'
(snapshot, receipt time) entries (the default entry when a cache is empty)
and an availability test, take the later entry when both are available
(ties go right, the comparison is strict `left.second > right.second`),
otherwise the available one, otherwise the right entry. -/
def pickSide (cl cr : AdvState × Nat) (avail : AdvState → Bool) : AdvState :=
  if avail cl.1 && avail cr.1 then
    if cl.2 > cr.2 then cl.1 else cr.1
  else
    if avail cl.1 then cl.1 else cr.1

/-- Cache entry fed to PICK_SIDE: the decoded snapshot and receipt time,
or the default-constructed pair when the cache is empty. -/
def cachedEntry : Option (Advertisement × Nat) → AdvState × Nat
  | some (a, t) => (a.state, t)
  | none => (defaultAdvState, 0)

/-- Availability test of the model group: `model != Model::Unknown`. -/
def modelAvail (st : AdvState) : Bool := st.model ≠ Model.Unknown

/-- Availability test of the left-pod group: `pods.left.battery.Available()`. -/
def leftPodAvail (st : AdvState) : Bool := st.pods.left.battery.isSome

/-- Availability test of the right-pod group. -/
def rightPodAvail (st : AdvState) : Bool := st.pods.right.battery.isSome

/-- Availability test of the case group: `caseBox.battery.Available()`. -/
def caseAvail (st : AdvState) : Bool := st.caseBox.battery.isSome

/-- Merge step of StateManager::UpdateState: the four field groups are
picked independently by PICK_SIDE from the two cache entries. -/
def computeNewState (l r : Option (Advertisement × Nat)) : State :=
  let cl := cachedEntry l
  let cr := cachedEntry r
  { model := (pickSide cl cr modelAvail).model
    pods :=
      { left := (pickSide cl cr leftPodAvail).pods.left
        right := (pickSide cl cr rightPodAvail).pods.right }
    caseBox := (pickSide cl cr caseAvail).caseBox }

/-- StateManager::UpdateState: recompute the merged state from the two
caches; when it equals the cached canonical state return no event,
otherwise install it and return the UpdateEvent with the previous state. -/
def updateState (s : SMState) : SMState × Option UpdateEvent :=
  if some (computeNewState s.advLeft s.advRight) = s.cachedState then
    (s, none)
  else
    ({ s with cachedState := some (computeNewState s.advLeft s.advRight) },
     some { oldState := s.cachedState,
            newState := computeNewState s.advLeft s.advRight })

/-- StateManager::OnAdvReceived: reject via IsPossibleDesiredAdv (warn
log, no event, nothing touched), otherwise UpdateAdv then UpdateState. -/
def onAdvReceived (s : SMState) (adv : Advertisement) (now : Nat) :
    SMState × Option UpdateEvent :=
  if isPossibleDesiredAdv s adv then
    updateState (updateAdv s adv now)
  else
    (s, none)

/-- StateManager::ResetAll: notify the main window (DisconnectSafely) iff
a canonical state existed, then clear both caches and the canonical
state.  The Bool is the notification. -/
def resetAll (s : SMState) : SMState × Bool :=
  ({ s with advLeft := none, advRight := none, cachedState := none },
   s.cachedState.isSome)

/-- StateManager::DoLost (lost-timer callback): log "Device is lost" iff
a canonical state exists, then ResetAll.  The Bool is the
lost/disconnected notification (the log and the DisconnectSafely call in
ResetAll are guarded by the same condition). -/
def doLost (s : SMState) : SMState × Bool := resetAll s

/-- StateManager::DoStateReset (per-side expiry callback): clear that
side's cache if it holds a value; nothing else is touched and no event is
produced (the source callback returns void and calls neither UpdateState
nor the main window). -/
def doStateReset (side : Side) (s : SMState) : SMState :=
  match side with
  | Side.Left => if s.advLeft.isSome then { s with advLeft := none } else s
  | Side.Right => if s.advRight.isSome then { s with advRight := none } else s

/-- Bluetooth::AdvertisementWatcher::ReceivedData: address, RSSI,
receipt timestamp and the manufacturer-data map (an association list from
vendor id to payload bytes). -/
structure ReceivedData where
  address : Nat
  rssi : Int
  timestamp : Nat
  manufacturerDataMap : List (Nat × List Nat)
deriving DecidableEq, Repr

/-- AppleCP::VendorId (0x004C). -/
def appleVendorId : Nat := 76

/-- Lookup in the manufacturer-data map (`manufacturerDataMap.find`). -/
def findMfrData (m : List (Nat × List Nat)) (k : Nat) : Option (List Nat) :=
  (m.find? (fun p => p.1 = k)).map Prod.snd

/-- Modelled from the spec: AppleCP::AirPods::IsValid, the fixed-layout
validity check of the accessory-status structure, is not in the excerpt;
per the spec it checks the type/length markers of the manufacturer-data
block (here: the proximity-pairing type byte 0x07, the length byte 0x19
and the total payload length). -/
def appleIsValid (b : List Nat) : Bool :=
  b.length = 27 && b.getD 0 0 = 7 && b.getD 1 0 = 25

/-- Details::Advertisement::IsDesiredAdv: the manufacturer-data map holds
an entry under the Apple vendor id and that payload passes
AppleCP::AirPods::IsValid. -/
def isDesiredAdv (d : ReceivedData) : Bool :=
  match findMfrData d.manufacturerDataMap appleVendorId with
  | none => false
  | some mfr => appleIsValid mfr

/-- Modelled from the spec: the parsed AppleCP::AirPods protocol
structure (not in the excerpt).  It carries the 2-byte model identifier,
the broadcasting-side indicator, the three raw 4-bit battery fields
(0-10 with a reserved unavailable sentinel) and the status flag bits. -/
structure AppleCP where
  modelId : Nat
  sideByte : Nat
  leftBatteryRaw : Nat
  rightBatteryRaw : Nat
  caseBatteryRaw : Nat
  flagsByte : Nat
deriving DecidableEq, Repr

/-- Modelled from the spec: the raw "unavailable" sentinel of the 4-bit
battery fields. -/
def batterySentinel : Nat := 15

/-- Modelled from the spec: decoding of one raw battery sub-field; values
in 0-10 are reported, anything else (the reserved sentinel) maps to
unavailable. -/
def decodeBatteryNibble (raw : Nat) : Option Nat :=
  if raw ≤ 10 then some raw else none

/-- Modelled from the spec: the model-id to Model mapping
(AppleCP::AirPods::GetModel); unrecognized ids map to Unknown. -/
def modelFromId (id : Nat) : Model :=
  if id = 8194 then Model.AirPods1
  else if id = 8207 then Model.AirPods2
  else if id = 8206 then Model.AirPodsPro
  else Model.Unknown

/-- Modelled from the spec: field extraction from the validated payload
bytes into the protocol structure (the wire layout of §6: 2-byte model
id, side indicator, status bits, three 4-bit battery fields). -/
def parseAppleCP (b : List Nat) : AppleCP :=
  { modelId := b.getD 3 0 * 256 + b.getD 4 0
    sideByte := b.getD 5 0
    leftBatteryRaw := b.getD 6 0 / 16
    rightBatteryRaw := b.getD 6 0 % 16
    caseBatteryRaw := b.getD 7 0 % 16
    flagsByte := b.getD 8 0 }

/-- Modelled from the spec: AppleCP::As, the decode entry: it yields the
parsed protocol structure exactly when the validity check passes. -/
def appleAs (b : List Nat) : Option AppleCP :=
  if appleIsValid b then some (parseAppleCP b) else none

/-- Scaling step of the Advertisement constructor (AirPods.cpp lines
89-97): an available battery value is multiplied by 10; an unavailable
one is left untouched. -/
def scaleBattery : Option Nat → Option Nat
  | some v => some (v * 10)
  | none => none

/-- Test of bit `k` of a flag byte. -/
def flagBit (byte k : Nat) : Bool := byte / 2 ^ k % 2 = 1

/-- The protocol getters applied in the Advertisement constructor,
assembled into an AdvState, followed by the constructor's battery
scaling (each battery field is `scaleBattery ∘ decodeBatteryNibble` of
its raw sub-field). -/
def advStateOfProtocol (p : AppleCP) : AdvState :=
  { model := modelFromId p.modelId
    side := if p.sideByte % 2 = 1 then Side.Left else Side.Right
    pods :=
      { left :=
          { battery := scaleBattery (decodeBatteryNibble p.leftBatteryRaw)
            isCharging := flagBit p.flagsByte 0
            isInEar := flagBit p.flagsByte 3 }
        right :=
          { battery := scaleBattery (decodeBatteryNibble p.rightBatteryRaw)
            isCharging := flagBit p.flagsByte 1
            isInEar := flagBit p.flagsByte 4 } }
    caseBox :=
      { battery := scaleBattery (decodeBatteryNibble p.caseBatteryRaw)
        isCharging := flagBit p.flagsByte 2
        isBothPodsInCase := flagBit p.flagsByte 5
        isLidOpened := flagBit p.flagsByte 6 } }

/-- Details::Advertisement constructor: APD_ASSERT(IsDesiredAdv(data)),
then GetMfrData (whose find is asserted to succeed), then
AppleCP::As (asserted to parse), then the field stores with battery
scaling.  `none` models a fatal assertion failure. -/
def mkAdvertisement (d : ReceivedData) : Option Advertisement :=
  if isDesiredAdv d then
    match findMfrData d.manufacturerDataMap appleVendorId with
    | none => none
    | some mfr =>
      match appleAs mfr with
      | none => none
      | some p =>
        some { address := d.address, rssi := d.rssi, state := advStateOfProtocol p }
  else none

/-- Manager::OnAdvertisementReceived: unrecognized data returns false;
otherwise the Advertisement is constructed (fatal assertions modelled by
the outer Option), then if no device is connected the packet is logged
and dropped returning false; otherwise the StateManager runs and the call
returns true together with the possibly-updated state and event. -/
def onAdvertisementReceived (deviceConnected : Bool) (sm : SMState)
    (d : ReceivedData) (now : Nat) :
    Option (Bool × SMState × Option UpdateEvent) :=
  if isDesiredAdv d then
    match mkAdvertisement d with
    | none => none
    | some adv =>
      if deviceConnected then
        let r := onAdvReceived sm adv now
        some (true, r.1, r.2)
      else
        some (false, sm, none)
  else
    some (false, sm, none)

/-! Concrete inputs used to exercise the definitions. -/

/-- Pod with a given battery and cleared flags. -/
def podB (b : Option Nat) : Pod := { battery := b, isCharging := false, isInEar := false }

/-- CaseBox with a given battery and cleared flags. -/
def caseB (b : Option Nat) : CaseBox :=
  { battery := b, isCharging := false, isBothPodsInCase := false, isLidOpened := false }

/-- Advertisement built from address, RSSI, model, side and the three
battery fields (already stored scaled, as after construction), with all
flags cleared. -/
def advMk (addr : Nat) (rssi : Int) (m : Model) (sd : Side) (lb rb cb : Option Nat) :
    Advertisement :=
  { address := addr
    rssi := rssi
    state :=
      { model := m
        side := sd
        pods := { left := podB lb, right := podB rb }
        caseBox := caseB cb } }

/-- Cached left advertisement for the address-rotation scenario:
address 1, RSSI -50, batteries 70/70/70. -/
def c1Cached : Advertisement :=
  advMk 1 (-50) Model.AirPods2 Side.Left (some 70) (some 70) (some 70)

/-- Incoming left advertisement after an address rotation: address 2,
same model and RSSI, left battery one 10%-step lower (60). -/
def c1Incoming : Advertisement :=
  advMk 2 (-50) Model.AirPods2 Side.Left (some 60) (some 70) (some 70)

/-- StateManager state holding the cached left advertisement. -/
def c1SM : SMState :=
  { advLeft := some (c1Cached, 0)
    advRight := none
    cachedState := none
    rssiMin := -100
    lostDeadline := 10
    leftDeadline := 10
    rightDeadline := 10 }

/-- Left advertisement cached at time 6 for the per-side expiry scenario. -/
def c2Left : Advertisement :=
  advMk 1 (-50) Model.AirPods2 Side.Left (some 70) (some 70) (some 70)

/-- Right advertisement cached at time 5, with different battery values. -/
def c2Right : Advertisement :=
  advMk 3 (-55) Model.AirPods2 Side.Right (some 40) (some 40) (some 40)

/-- StateManager state with both sides cached and the canonical state
consistent with the merge of the two caches (sourced from the later left
packet for every group). -/
def c2SM : SMState :=
  { advLeft := some (c2Left, 6)
    advRight := some (c2Right, 5)
    cachedState := some (computeNewState (some (c2Left, 6)) (some (c2Right, 5)))
    rssiMin := -100
    lostDeadline := 16
    leftDeadline := 16
    rightDeadline := 15 }

/-- Valid Apple manufacturer payload: type byte 7, length byte 25,
model id bytes, side byte, battery nibbles (left 7, right 8, case 9),
27 bytes in total. -/
def c3Bytes : List Nat :=
  7 :: 25 :: 0 :: 32 :: 15 :: 1 :: (7 * 16 + 8) :: 9 :: 0 :: List.replicate 18 0

/-- Raw broadcast record recognized as a desired advertisement. -/
def c3Data : ReceivedData :=
  { address := 5, rssi := -40, timestamp := 0, manufacturerDataMap := [(76, c3Bytes)] }

/-- Empty StateManager state. -/
def c3SM : SMState :=
  { advLeft := none
    advRight := none
    cachedState := none
    rssiMin := -100
    lostDeadline := 10
    leftDeadline := 10
    rightDeadline := 10 }

/-- Left cache entry with a usable model and left-pod battery, received
at time 5 (later than the right entry). -/
def c4l : Option (Advertisement × Nat) :=
  some (advMk 1 (-50) Model.AirPods2 Side.Left (some 70) none none, 5)

/-- Right cache entry with a usable model and right-pod battery, received
at time 3; no case battery on either side. -/
def c4r : Option (Advertisement × Nat) :=
  some (advMk 3 (-55) Model.AirPods1 Side.Right none (some 40) none, 3)

/-- Empty StateManager state for the idempotence scenario. -/
def c5s0 : SMState :=
  { advLeft := none
    advRight := none
    cachedState := none
    rssiMin := -100
    lostDeadline := 10
    leftDeadline := 10
    rightDeadline := 10 }

/-- Accepted left advertisement for the idempotence scenario. -/
def c5adv : Advertisement :=
  advMk 2 (-50) Model.AirPods2 Side.Left (some 60) (some 70) (some 70)

/-- The merged state produced by accepting c5adv into the empty state. -/
def c5M : State :=
  { model := Model.AirPods2
    pods := { left := podB (some 60), right := podB (some 70) }
    caseBox := caseB (some 70) }

/-- StateManager state after the first accepted packet at time 1. -/
def c5s1 : SMState :=
  { advLeft := some (c5adv, 1)
    advRight := none
    cachedState := some c5M
    rssiMin := -100
    lostDeadline := 11
    leftDeadline := 11
    rightDeadline := 10 }

/-- The UpdateEvent produced by the first accepted packet. -/
def c5e : UpdateEvent := { oldState := none, newState := c5M }

/-- Protocol structure with left battery raw 7 and the case battery at
the unavailable sentinel. -/
def c6p : AppleCP :=
  { modelId := 8207
    sideByte := 1
    leftBatteryRaw := 7
    rightBatteryRaw := 3
    caseBatteryRaw := 15
    flagsByte := 0 }

/-- StateManager state with a canonical state present, for the lost-timer
scenario. -/
def c7SM : SMState :=
  { advLeft := some (advMk 1 (-50) Model.AirPods2 Side.Left (some 70) (some 70) (some 70), 2)
    advRight := none
    cachedState := some (computeNewState
      (some (advMk 1 (-50) Model.AirPods2 Side.Left (some 70) (some 70) (some 70), 2)) none)
    rssiMin := -100
    lostDeadline := 12
    leftDeadline := 12
    rightDeadline := 10 }

/-- StateManager state with an RSSI floor of -40. -/
def c8SM : SMState :=
  { advLeft := none
    advRight := none
    cachedState := none
    rssiMin := -40
    lostDeadline := 10
    leftDeadline := 10
    rightDeadline := 10 }

/-- Advertisement below the RSSI floor of c8SM. -/
def c8Adv : Advertisement :=
  advMk 9 (-90) Model.AirPods2 Side.Left (some 70) (some 70) (some 70)

/-- Left cache entry for the timestamp-tie scenario, received at time 4. -/
def c10l : Option (Advertisement × Nat) :=
  some (advMk 1 (-50) Model.AirPods2 Side.Left (some 70) (some 70) (some 70), 4)

/-- Right cache entry for the timestamp-tie scenario, also received at
time 4, with different field values. -/
def c10r : Option (Advertisement × Nat) :=
  some (advMk 3 (-55) Model.AirPods1 Side.Right (some 40) (some 40) (some 40), 4)

/-! Helper lemmas. -/

theorem mkAdvertisement_isSome (d : ReceivedData) (h : isDesiredAdv d = true) :
    (mkAdvertisement d).isSome = true := by
  unfold isDesiredAdv at h
  unfold mkAdvertisement
  rw [isDesiredAdv]
  cases hf : findMfrData d.manufacturerDataMap appleVendorId with
  | none => rw [hf] at h; exact absurd h (by simp)
  | some mfr =>
    rw [hf] at h
    simp only [] at h
    simp [hf, h, appleAs]

theorem pickSide_both_later_left (cl cr : AdvState × Nat) (f : AdvState → Bool)
    (h1 : f cl.1 = true) (h2 : f cr.1 = true) (h3 : cr.2 < cl.2) :
    pickSide cl cr f = cl.1 := by
  simp [pickSide, h1, h2, h3]

theorem pickSide_both_not_later (cl cr : AdvState × Nat) (f : AdvState → Bool)
    (h1 : f cl.1 = true) (h2 : f cr.1 = true) (h3 : ¬ cr.2 < cl.2) :
    pickSide cl cr f = cr.1 := by
  simp [pickSide, h1, h2, h3]

theorem pickSide_left_only (cl cr : AdvState × Nat) (f : AdvState → Bool)
    (h1 : f cl.1 = true) (h2 : f cr.1 = false) :
    pickSide cl cr f = cl.1 := by
  simp [pickSide, h1, h2]

theorem pickSide_left_unavail (cl cr : AdvState × Nat) (f : AdvState → Bool)
    (h1 : f cl.1 = false) :
    pickSide cl cr f = cr.1 := by
  simp [pickSide, h1]

theorem computeNewState_model (l r : Option (Advertisement × Nat)) :
    (computeNewState l r).model =
      (pickSide (cachedEntry l) (cachedEntry r) modelAvail).model := rfl

theorem computeNewState_podsLeft (l r : Option (Advertisement × Nat)) :
    (computeNewState l r).pods.left =
      (pickSide (cachedEntry l) (cachedEntry r) leftPodAvail).pods.left := rfl

theorem computeNewState_podsRight (l r : Option (Advertisement × Nat)) :
    (computeNewState l r).pods.right =
      (pickSide (cachedEntry l) (cachedEntry r) rightPodAvail).pods.right := rfl

theorem computeNewState_caseBox (l r : Option (Advertisement × Nat)) :
    (computeNewState l r).caseBox =
      (pickSide (cachedEntry l) (cachedEntry r) caseAvail).caseBox := rfl

theorem modelAvail_eq_false (st : AdvState) (h : modelAvail st = false) :
    st.model = Model.Unknown := by
  simpa [modelAvail] using h

theorem leftPodAvail_eq_false (st : AdvState) (h : leftPodAvail st = false) :
    st.pods.left.battery = none := by
  simpa [leftPodAvail] using h

theorem rightPodAvail_eq_false (st : AdvState) (h : rightPodAvail st = false) :
    st.pods.right.battery = none := by
  simpa [rightPodAvail] using h

theorem caseAvail_eq_false (st : AdvState) (h : caseAvail st = false) :
    st.caseBox.battery = none := by
  simpa [caseAvail] using h

theorem updateAdv_rssiMin (s : SMState) (adv : Advertisement) (now : Nat) :
    (updateAdv s adv now).rssiMin = s.rssiMin := by
  unfold updateAdv
  cases adv.state.side <;> rfl

theorem updateAdv_cachedState (s : SMState) (adv : Advertisement) (now : Nat) :
    (updateAdv s adv now).cachedState = s.cachedState := by
  unfold updateAdv
  cases adv.state.side <;> rfl

theorem updateAdv_same (s : SMState) (adv : Advertisement) (now : Nat) :
    sideCache (updateAdv s adv now) adv.state.side = some (adv, now) := by
  unfold updateAdv
  cases h : adv.state.side <;> simp [sideCache]

theorem updateAdv_other (s : SMState) (adv : Advertisement) (now : Nat) :
    sideCache (updateAdv s adv now) (oppositeSide adv.state.side) =
      sideCache s (oppositeSide adv.state.side) := by
  unfold updateAdv
  cases h : adv.state.side <;> simp [sideCache, oppositeSide]

theorem updateState_advLeft (s : SMState) : (updateState s).1.advLeft = s.advLeft := by
  unfold updateState
  split <;> rfl

theorem updateState_advRight (s : SMState) : (updateState s).1.advRight = s.advRight := by
  unfold updateState
  split <;> rfl

theorem updateState_rssiMin (s : SMState) : (updateState s).1.rssiMin = s.rssiMin := by
  unfold updateState
  split <;> rfl

theorem updateState_sideCache (s : SMState) (side : Side) :
    sideCache (updateState s).1 side = sideCache s side := by
  cases side
  · exact updateState_advLeft s
  · exact updateState_advRight s

theorem updateState_event_cachedState (s : SMState) (e : UpdateEvent)
    (h : (updateState s).2 = some e) :
    (updateState s).1.cachedState = some (computeNewState s.advLeft s.advRight) := by
  unfold updateState at *
  by_cases hc : some (computeNewState s.advLeft s.advRight) = s.cachedState
  · rw [if_pos hc] at h
    exact absurd h (by simp)
  · rw [if_neg hc]

theorem updateState_noChange (s : SMState)
    (h : some (computeNewState s.advLeft s.advRight) = s.cachedState) :
    updateState s = (s, none) := by
  unfold updateState
  rw [if_pos h]

theorem sameSideCheck_self (s : SMState) (adv : Advertisement) (t : Nat)
    (h : sideCache s adv.state.side = some (adv, t)) :
    sameSideCheck s adv = true := by
  unfold sameSideCheck
  rw [h]
  simp

theorem otherSideCheck_congr (s1 s2 : SMState) (adv : Advertisement)
    (h : sideCache s1 (oppositeSide adv.state.side) =
         sideCache s2 (oppositeSide adv.state.side)) :
    otherSideCheck s1 adv = otherSideCheck s2 adv := by
  unfold otherSideCheck
  rw [h]

theorem pickSide_fresh_left (st cst : AdvState) (t t2 tr : Nat) (f : AdvState → Bool)
    (h1 : tr < t) (h2 : tr < t2) :
    pickSide (st, t) (cst, tr) f = pickSide (st, t2) (cst, tr) f := by
  unfold pickSide
  split
  · simp [h1, h2]
  · rfl

theorem pickSide_fresh_right (st cst : AdvState) (t t2 tl : Nat) (f : AdvState → Bool)
    (h1 : tl < t) (h2 : tl < t2) :
    pickSide (cst, tl) (st, t) f = pickSide (cst, tl) (st, t2) f := by
  unfold pickSide
  split
  · have g1 : ¬ t < tl := Nat.not_lt.mpr (Nat.le_of_lt h1)
    have g2 : ¬ t2 < tl := Nat.not_lt.mpr (Nat.le_of_lt h2)
    simp [g1, g2]
  · rfl

theorem computeNewState_refresh_left (adv : Advertisement) (t t2 : Nat)
    (r : Option (Advertisement × Nat))
    (hr : ∀ a tr, r = some (a, tr) → tr < t) (ht : t ≤ t2) :
    computeNewState (some (adv, t2)) r = computeNewState (some (adv, t)) r := by
  cases r with
  | none =>
    unfold computeNewState cachedEntry
    simp [pickSide_left_unavail, pickSide, modelAvail, leftPodAvail, rightPodAvail,
      caseAvail, defaultAdvState, defaultPod, defaultCaseBox]
  | some p =>
    obtain ⟨a, tr⟩ := p
    have h1 : tr < t := hr a tr rfl
    have h2 : tr < t2 := lt_of_lt_of_le h1 ht
    simp only [computeNewState, cachedEntry]
    rw [pickSide_fresh_left adv.state a.state t2 t tr modelAvail h2 h1,
      pickSide_fresh_left adv.state a.state t2 t tr leftPodAvail h2 h1,
      pickSide_fresh_left adv.state a.state t2 t tr rightPodAvail h2 h1,
      pickSide_fresh_left adv.state a.state t2 t tr caseAvail h2 h1]

theorem computeNewState_refresh_right (adv : Advertisement) (t t2 : Nat)
    (l : Option (Advertisement × Nat))
    (hl : ∀ a tl, l = some (a, tl) → tl < t) (ht : t ≤ t2) :
    computeNewState l (some (adv, t2)) = computeNewState l (some (adv, t)) := by
  cases l with
  | none =>
    unfold computeNewState cachedEntry
    simp [pickSide, modelAvail, leftPodAvail, rightPodAvail, caseAvail,
      defaultAdvState, defaultPod, defaultCaseBox]
  | some p =>
    obtain ⟨a, tl⟩ := p
    have h1 : tl < t := hl a tl rfl
    have h2 : tl < t2 := lt_of_lt_of_le h1 ht
    simp only [computeNewState, cachedEntry]
    rw [pickSide_fresh_right adv.state a.state t2 t tl modelAvail h2 h1,
      pickSide_fresh_right adv.state a.state t2 t tl leftPodAvail h2 h1,
      pickSide_fresh_right adv.state a.state t2 t tl rightPodAvail h2 h1,
      pickSide_fresh_right adv.state a.state t2 t tl caseAvail h2 h1]

/-! Claim theorems. -/

/-- C1: the plausibility filter is claimed to accept an address-rotated
same-side packet whose model matches, whose RSSI delta is at most 50 and
whose battery fields each changed by at most one 10%-step.  The code
evaluates to the opposite: in the concrete scenario below every one of
those conditions holds (the left battery moved exactly one step, from
stored 70 to stored 60, a delta of 10), yet IsPossibleDesiredAdv rejects,
because the battery deltas are computed on the values already scaled by
10 while still being compared against the raw-unit bound 1. -/
theorem one_step_battery_rotation_rejected :
    (¬ c1Incoming.rssi < c1SM.rssiMin) ∧
    sideCache c1SM c1Incoming.state.side = some (c1Cached, 0) ∧
    c1Cached.address ≠ c1Incoming.address ∧
    c1Incoming.state.model = c1Cached.state.model ∧
    (c1Incoming.rssi - c1Cached.rssi).natAbs ≤ 50 ∧
    batteryDiff c1Incoming.state.pods.left.battery c1Cached.state.pods.left.battery = 10 ∧
    batteryDiff c1Incoming.state.pods.right.battery c1Cached.state.pods.right.battery = 0 ∧
    batteryDiff c1Incoming.state.caseBox.battery c1Cached.state.caseBox.battery = 0 ∧
    isPossibleDesiredAdv c1SM c1Incoming = false := by
  decide

/-- C2 counterexample: with both sides cached and the canonical state
sourced from the later left packet, firing the left expiry timer
(DoStateReset) clears the left cache but leaves the canonical state in
place even though the state recomputed from the remaining right cache
differs from it; no UpdateEvent is produced (DoStateReset returns void in
the source and never calls UpdateState), contradicting the claim that
one fires. -/
theorem expiry_fires_no_event_cex :
    (doStateReset Side.Left c2SM).advLeft = none ∧
    (doStateReset Side.Left c2SM).advRight = c2SM.advRight ∧
    (doStateReset Side.Left c2SM).cachedState = c2SM.cachedState ∧
    some (computeNewState (doStateReset Side.Left c2SM).advLeft
      (doStateReset Side.Left c2SM).advRight) ≠ c2SM.cachedState := by
  decide

/-- C2 amended: when the per-side expiry timer fires while the other side
is still cached, only the silent side's cache clears; the other cache,
the canonical state, the RSSI floor and all timer deadlines are
unchanged, and no UpdateEvent is produced at expiry (the merged state is
not recomputed then). -/
theorem expiry_clears_only_silent_side (s : SMState) (side : Side)
    (hOther : (sideCache s (oppositeSide side)).isSome = true) :
    sideCache (doStateReset side s) side = none ∧
    sideCache (doStateReset side s) (oppositeSide side) =
      sideCache s (oppositeSide side) ∧
    (doStateReset side s).cachedState = s.cachedState ∧
    (doStateReset side s).rssiMin = s.rssiMin ∧
    (doStateReset side s).lostDeadline = s.lostDeadline ∧
    (doStateReset side s).leftDeadline = s.leftDeadline ∧
    (doStateReset side s).rightDeadline = s.rightDeadline := by
  cases side with
  | Left =>
    cases hL : s.advLeft with
    | none => simp [doStateReset, sideCache, oppositeSide, hL]
    | some p => simp [doStateReset, sideCache, oppositeSide, hL]
  | Right =>
    cases hR : s.advRight with
    | none => simp [doStateReset, sideCache, oppositeSide, hR]
    | some p => simp [doStateReset, sideCache, oppositeSide, hR]

/-- C2 witness: the amended statement applied to the concrete two-sided
state. -/
theorem expiry_clears_only_silent_side_witness :
    sideCache (doStateReset Side.Left c2SM) Side.Left = none ∧
    sideCache (doStateReset Side.Left c2SM) (oppositeSide Side.Left) =
      sideCache c2SM (oppositeSide Side.Left) ∧
    (doStateReset Side.Left c2SM).cachedState = c2SM.cachedState ∧
    (doStateReset Side.Left c2SM).rssiMin = c2SM.rssiMin ∧
    (doStateReset Side.Left c2SM).lostDeadline = c2SM.lostDeadline ∧
    (doStateReset Side.Left c2SM).leftDeadline = c2SM.leftDeadline ∧
    (doStateReset Side.Left c2SM).rightDeadline = c2SM.rightDeadline :=
  expiry_clears_only_silent_side c2SM Side.Left (by decide)

/-- C3 counterexample: for a raw record the decoder recognizes, received
while no device is connected, OnAdvertisementReceived does not count the
packet as recognized for the caller: it returns false (the source returns
false from the disconnected branch), with no state change and no event. -/
theorem disconnected_recognized_returns_false_cex :
    isDesiredAdv c3Data = true ∧
    onAdvertisementReceived false c3SM c3Data 3 = some (false, c3SM, none) := by
  decide

/-- C3 amended: for every raw record the decoder recognizes, received
while no device is connected, the packet is only logged and ignored with
no state change and no event, and OnAdvertisementReceived returns false
(not true as claimed). -/
theorem disconnected_drop_returns_false (sm : SMState) (d : ReceivedData) (now : Nat)
    (h : isDesiredAdv d = true) :
    onAdvertisementReceived false sm d now = some (false, sm, none) := by
  have hm := mkAdvertisement_isSome d h
  obtain ⟨adv, hadv⟩ := Option.isSome_iff_exists.mp hm
  simp [onAdvertisementReceived, h, hadv]

/-- C3 witness: the amended statement applied to the concrete recognized
record. -/
theorem disconnected_drop_returns_false_witness :
    onAdvertisementReceived false c3SM c3Data 3 = some (false, c3SM, none) :=
  disconnected_drop_returns_false c3SM c3Data 3 (by decide)

/-- C6: in the decoded advertisement each battery sub-field whose raw
value is in 0-10 is stored multiplied by 10, and the raw unavailable
sentinel is stored as an absent value that the constructor's scaling step
leaves untouched.  Stated over the protocol getters composed with the
constructor stores (advStateOfProtocol). -/
theorem battery_scaling (p : AppleCP) :
    (p.leftBatteryRaw ≤ 10 →
      (advStateOfProtocol p).pods.left.battery = some (p.leftBatteryRaw * 10)) ∧
    (p.leftBatteryRaw = batterySentinel →
      (advStateOfProtocol p).pods.left.battery = none) ∧
    (p.rightBatteryRaw ≤ 10 →
      (advStateOfProtocol p).pods.right.battery = some (p.rightBatteryRaw * 10)) ∧
    (p.rightBatteryRaw = batterySentinel →
      (advStateOfProtocol p).pods.right.battery = none) ∧
    (p.caseBatteryRaw ≤ 10 →
      (advStateOfProtocol p).caseBox.battery = some (p.caseBatteryRaw * 10)) ∧
    (p.caseBatteryRaw = batterySentinel →
      (advStateOfProtocol p).caseBox.battery = none) := by
  refine ⟨?_, ?_, ?_, ?_, ?_, ?_⟩ <;> intro h <;>
    simp [advStateOfProtocol, scaleBattery, decodeBatteryNibble, batterySentinel, h]

/-- C6 witness: raw left value 7 is stored as 70 and the raw case
sentinel is stored as unavailable. -/
theorem battery_scaling_witness :
    (advStateOfProtocol c6p).pods.left.battery = some (c6p.leftBatteryRaw * 10) ∧
    (advStateOfProtocol c6p).caseBox.battery = none :=
  ⟨(battery_scaling c6p).1 (by decide), (battery_scaling c6p).2.2.2.2.2 (by decide)⟩

/-- C7: when a canonical state exists, a firing of the lost timer
(DoLost) performs the full reset and emits the single lost/disconnected
notification (the Bool component), and a further firing on the resulting
already-empty state changes nothing and emits no further notification. -/
theorem lost_reset_once (s : SMState) (h : s.cachedState.isSome = true) :
    (doLost s).2 = true ∧
    (doLost s).1.advLeft = none ∧
    (doLost s).1.advRight = none ∧
    (doLost s).1.cachedState = none ∧
    (doLost s).1.rssiMin = s.rssiMin ∧
    doLost (doLost s).1 = ((doLost s).1, false) := by
  exact ⟨h, rfl, rfl, rfl, rfl, rfl⟩

/-- C7 witness: the lost timer applied to the concrete populated state. -/
theorem lost_reset_once_witness :
    (doLost c7SM).2 = true ∧
    (doLost c7SM).1.advLeft = none ∧
    (doLost c7SM).1.advRight = none ∧
    (doLost c7SM).1.cachedState = none ∧
    (doLost c7SM).1.rssiMin = c7SM.rssiMin ∧
    doLost (doLost c7SM).1 = ((doLost c7SM).1, false) :=
  lost_reset_once c7SM (by decide)

/-- C8: an advertisement rejected by the plausibility filter leaves the
whole reconciliation state untouched and produces no event: OnAdvReceived
returns the input state unchanged (both caches, the canonical state, the
RSSI floor and all three timer deadlines included) paired with no event. -/
theorem rejected_adv_no_mutation (s : SMState) (adv : Advertisement) (now : Nat)
    (h : isPossibleDesiredAdv s adv = false) :
    onAdvReceived s adv now = (s, none) := by
  simp [onAdvReceived, h]

/-- C8 witness: a packet below the RSSI floor is rejected and mutates
nothing. -/
theorem rejected_adv_no_mutation_witness :
    onAdvReceived c8SM c8Adv 5 = (c8SM, none) :=
  rejected_adv_no_mutation c8SM c8Adv 5 (by decide)

/-- C4: in the merge each of the four field groups {model, leftPod,
rightPod, caseBox} is selected independently: with both caches usable for
the group the snapshot with the strictly later receipt timestamp wins;
with only one usable the group comes from that snapshot; with neither the
group stays unavailable (Unknown model resp. absent battery).  Each
group's clause lists those four cases over the cache entries fed to
PICK_SIDE. -/
theorem merge_field_groups (l r : Option (Advertisement × Nat))
    (_hne : l.isSome = true ∨ r.isSome = true) :
    (modelAvail (cachedEntry l).1 = true → modelAvail (cachedEntry r).1 = true →
      ((cachedEntry r).2 < (cachedEntry l).2 →
        (computeNewState l r).model = (cachedEntry l).1.model) ∧
      ((cachedEntry l).2 < (cachedEntry r).2 →
        (computeNewState l r).model = (cachedEntry r).1.model)) ∧
    (modelAvail (cachedEntry l).1 = true → modelAvail (cachedEntry r).1 = false →
      (computeNewState l r).model = (cachedEntry l).1.model) ∧
    (modelAvail (cachedEntry l).1 = false → modelAvail (cachedEntry r).1 = true →
      (computeNewState l r).model = (cachedEntry r).1.model) ∧
    (modelAvail (cachedEntry l).1 = false → modelAvail (cachedEntry r).1 = false →
      (computeNewState l r).model = Model.Unknown) ∧
    (leftPodAvail (cachedEntry l).1 = true → leftPodAvail (cachedEntry r).1 = true →
      ((cachedEntry r).2 < (cachedEntry l).2 →
        (computeNewState l r).pods.left = (cachedEntry l).1.pods.left) ∧
      ((cachedEntry l).2 < (cachedEntry r).2 →
        (computeNewState l r).pods.left = (cachedEntry r).1.pods.left)) ∧
    (leftPodAvail (cachedEntry l).1 = true → leftPodAvail (cachedEntry r).1 = false →
      (computeNewState l r).pods.left = (cachedEntry l).1.pods.left) ∧
    (leftPodAvail (cachedEntry l).1 = false → leftPodAvail (cachedEntry r).1 = true →
      (computeNewState l r).pods.left = (cachedEntry r).1.pods.left) ∧
    (leftPodAvail (cachedEntry l).1 = false → leftPodAvail (cachedEntry r).1 = false →
      (computeNewState l r).pods.left.battery = none) ∧
    (rightPodAvail (cachedEntry l).1 = true → rightPodAvail (cachedEntry r).1 = true →
      ((cachedEntry r).2 < (cachedEntry l).2 →
        (computeNewState l r).pods.right = (cachedEntry l).1.pods.right) ∧
      ((cachedEntry l).2 < (cachedEntry r).2 →
        (computeNewState l r).pods.right = (cachedEntry r).1.pods.right)) ∧
    (rightPodAvail (cachedEntry l).1 = true → rightPodAvail (cachedEntry r).1 = false →
      (computeNewState l r).pods.right = (cachedEntry l).1.pods.right) ∧
    (rightPodAvail (cachedEntry l).1 = false → rightPodAvail (cachedEntry r).1 = true →
      (computeNewState l r).pods.right = (cachedEntry r).1.pods.right) ∧
    (rightPodAvail (cachedEntry l).1 = false → rightPodAvail (cachedEntry r).1 = false →
      (computeNewState l r).pods.right.battery = none) ∧
    (caseAvail (cachedEntry l).1 = true → caseAvail (cachedEntry r).1 = true →
      ((cachedEntry r).2 < (cachedEntry l).2 →
        (computeNewState l r).caseBox = (cachedEntry l).1.caseBox) ∧
      ((cachedEntry l).2 < (cachedEntry r).2 →
        (computeNewState l r).caseBox = (cachedEntry r).1.caseBox)) ∧
    (caseAvail (cachedEntry l).1 = true → caseAvail (cachedEntry r).1 = false →
      (computeNewState l r).caseBox = (cachedEntry l).1.caseBox) ∧
    (caseAvail (cachedEntry l).1 = false → caseAvail (cachedEntry r).1 = true →
      (computeNewState l r).caseBox = (cachedEntry r).1.caseBox) ∧
    (caseAvail (cachedEntry l).1 = false → caseAvail (cachedEntry r).1 = false →
      (computeNewState l r).caseBox.battery = none) := by
  refine ⟨
    fun h1 h2 => ⟨fun h3 => ?_, fun h3 => ?_⟩,
    fun h1 h2 => ?_, fun h1 h2 => ?_, fun h1 h2 => ?_,
    fun h1 h2 => ⟨fun h3 => ?_, fun h3 => ?_⟩,
    fun h1 h2 => ?_, fun h1 h2 => ?_, fun h1 h2 => ?_,
    fun h1 h2 => ⟨fun h3 => ?_, fun h3 => ?_⟩,
    fun h1 h2 => ?_, fun h1 h2 => ?_, fun h1 h2 => ?_,
    fun h1 h2 => ⟨fun h3 => ?_, fun h3 => ?_⟩,
    fun h1 h2 => ?_, fun h1 h2 => ?_, fun h1 h2 => ?_⟩
  · rw [computeNewState_model, pickSide_both_later_left _ _ _ h1 h2 h3]
  · rw [computeNewState_model, pickSide_both_not_later _ _ _ h1 h2 (Nat.lt_asymm h3)]
  · rw [computeNewState_model, pickSide_left_only _ _ _ h1 h2]
  · rw [computeNewState_model, pickSide_left_unavail _ _ _ h1]
  · rw [computeNewState_model, pickSide_left_unavail _ _ _ h1]
    exact modelAvail_eq_false _ h2
  · rw [computeNewState_podsLeft, pickSide_both_later_left _ _ _ h1 h2 h3]
  · rw [computeNewState_podsLeft, pickSide_both_not_later _ _ _ h1 h2 (Nat.lt_asymm h3)]
  · rw [computeNewState_podsLeft, pickSide_left_only _ _ _ h1 h2]
  · rw [computeNewState_podsLeft, pickSide_left_unavail _ _ _ h1]
  · rw [computeNewState_podsLeft, pickSide_left_unavail _ _ _ h1]
    exact leftPodAvail_eq_false _ h2
  · rw [computeNewState_podsRight, pickSide_both_later_left _ _ _ h1 h2 h3]
  · rw [computeNewState_podsRight, pickSide_both_not_later _ _ _ h1 h2 (Nat.lt_asymm h3)]
  · rw [computeNewState_podsRight, pickSide_left_only _ _ _ h1 h2]
  · rw [computeNewState_podsRight, pickSide_left_unavail _ _ _ h1]
  · rw [computeNewState_podsRight, pickSide_left_unavail _ _ _ h1]
    exact rightPodAvail_eq_false _ h2
  · rw [computeNewState_caseBox, pickSide_both_later_left _ _ _ h1 h2 h3]
  · rw [computeNewState_caseBox, pickSide_both_not_later _ _ _ h1 h2 (Nat.lt_asymm h3)]
  · rw [computeNewState_caseBox, pickSide_left_only _ _ _ h1 h2]
  · rw [computeNewState_caseBox, pickSide_left_unavail _ _ _ h1]
  · rw [computeNewState_caseBox, pickSide_left_unavail _ _ _ h1]
    exact caseAvail_eq_false _ h2

/-- C4 witness: with the later left entry usable for the model group the
merged model is the left one; with only the right entry usable for the
right-pod group the merged right pod is the right one; with neither side
carrying a case battery the merged case battery stays unavailable. -/
theorem merge_field_groups_witness :
    (computeNewState c4l c4r).model = (cachedEntry c4l).1.model ∧
    (computeNewState c4l c4r).pods.right = (cachedEntry c4r).1.pods.right ∧
    (computeNewState c4l c4r).caseBox.battery = none :=
  ⟨((merge_field_groups c4l c4r (Or.inl (by decide))).1 (by decide) (by decide)).1
      (by decide),
   (merge_field_groups c4l c4r (Or.inl (by decide))).2.2.2.2.2.2.2.2.2.2.1
      (by decide) (by decide),
   (merge_field_groups c4l c4r (Or.inl (by decide))).2.2.2.2.2.2.2.2.2.2.2.2.2.2.2
      (by decide) (by decide)⟩

/-- C10: for each field group with both caches usable, an entry is taken
from the left side only when its receipt timestamp is strictly later;
whenever the left timestamp is at most the right one (in particular on an
exact tie) the right side's snapshot is selected (the source comparison
is strict: left.second > right.second). -/
theorem merge_tie_goes_right (l r : Option (Advertisement × Nat)) :
    (modelAvail (cachedEntry l).1 = true → modelAvail (cachedEntry r).1 = true →
      ((cachedEntry l).2 ≤ (cachedEntry r).2 →
        (computeNewState l r).model = (cachedEntry r).1.model) ∧
      ((cachedEntry r).2 < (cachedEntry l).2 →
        (computeNewState l r).model = (cachedEntry l).1.model)) ∧
    (leftPodAvail (cachedEntry l).1 = true → leftPodAvail (cachedEntry r).1 = true →
      ((cachedEntry l).2 ≤ (cachedEntry r).2 →
        (computeNewState l r).pods.left = (cachedEntry r).1.pods.left) ∧
      ((cachedEntry r).2 < (cachedEntry l).2 →
        (computeNewState l r).pods.left = (cachedEntry l).1.pods.left)) ∧
    (rightPodAvail (cachedEntry l).1 = true → rightPodAvail (cachedEntry r).1 = true →
      ((cachedEntry l).2 ≤ (cachedEntry r).2 →
        (computeNewState l r).pods.right = (cachedEntry r).1.pods.right) ∧
      ((cachedEntry r).2 < (cachedEntry l).2 →
        (computeNewState l r).pods.right = (cachedEntry l).1.pods.right)) ∧
    (caseAvail (cachedEntry l).1 = true → caseAvail (cachedEntry r).1 = true →
      ((cachedEntry l).2 ≤ (cachedEntry r).2 →
        (computeNewState l r).caseBox = (cachedEntry r).1.caseBox) ∧
      ((cachedEntry r).2 < (cachedEntry l).2 →
        (computeNewState l r).caseBox = (cachedEntry l).1.caseBox)) := by
  refine ⟨fun h1 h2 => ⟨fun h3 => ?_, fun h3 => ?_⟩,
    fun h1 h2 => ⟨fun h3 => ?_, fun h3 => ?_⟩,
    fun h1 h2 => ⟨fun h3 => ?_, fun h3 => ?_⟩,
    fun h1 h2 => ⟨fun h3 => ?_, fun h3 => ?_⟩⟩
  · rw [computeNewState_model, pickSide_both_not_later _ _ _ h1 h2 (Nat.not_lt.mpr h3)]
  · rw [computeNewState_model, pickSide_both_later_left _ _ _ h1 h2 h3]
  · rw [computeNewState_podsLeft, pickSide_both_not_later _ _ _ h1 h2 (Nat.not_lt.mpr h3)]
  · rw [computeNewState_podsLeft, pickSide_both_later_left _ _ _ h1 h2 h3]
  · rw [computeNewState_podsRight, pickSide_both_not_later _ _ _ h1 h2 (Nat.not_lt.mpr h3)]
  · rw [computeNewState_podsRight, pickSide_both_later_left _ _ _ h1 h2 h3]
  · rw [computeNewState_caseBox, pickSide_both_not_later _ _ _ h1 h2 (Nat.not_lt.mpr h3)]
  · rw [computeNewState_caseBox, pickSide_both_later_left _ _ _ h1 h2 h3]

/-- C10 witness: on an exact timestamp tie the merged model and left pod
come from the right snapshot. -/
theorem merge_tie_goes_right_witness :
    (computeNewState c10l c10r).model = (cachedEntry c10r).1.model ∧
    (computeNewState c10l c10r).pods.left = (cachedEntry c10r).1.pods.left :=
  ⟨((merge_tie_goes_right c10l c10r).1 (by decide) (by decide)).1 (by decide),
   ((merge_tie_goes_right c10l c10r).2.1 (by decide) (by decide)).1 (by decide)⟩

/-- C9: for every raw record processed by OnAdvertisementReceived the
fatal assertions in the Advertisement construction are unreachable: the
constructor is only entered after IsDesiredAdv returned true, under which
the vendor entry exists and the payload parses, so the total model never
reaches the crash value none. -/
theorem advertisement_asserts_unreachable (dc : Bool) (sm : SMState)
    (d : ReceivedData) (now : Nat) :
    (onAdvertisementReceived dc sm d now).isSome = true := by
  unfold onAdvertisementReceived
  by_cases h : isDesiredAdv d = true
  · obtain ⟨adv, hadv⟩ := Option.isSome_iff_exists.mp (mkAdvertisement_isSome d h)
    cases dc <;> simp [h, hadv]
  · simp [h]

/-- C5: once an advertisement has been accepted at time t and produced an
UpdateEvent, resubmitting the identical packet at a no-earlier time t2
before any timer fires is accepted again by the filter but produces no
event, and the canonical state is unchanged.  The hypothesis on the
opposite cache states that its packet was received strictly before t, as
holds for consecutive receipts on a monotone clock. -/
theorem identical_repeat_no_event (s : SMState) (adv : Advertisement) (t t2 : Nat)
    (s2 : SMState) (e : UpdateEvent)
    (hfirst : onAdvReceived s adv t = (s2, some e))
    (horder : ∀ a tr, sideCache s (oppositeSide adv.state.side) = some (a, tr) → tr < t)
    (ht : t ≤ t2) :
    isPossibleDesiredAdv s2 adv = true ∧
    (onAdvReceived s2 adv t2).2 = none ∧
    (onAdvReceived s2 adv t2).1.cachedState = s2.cachedState := by
  have hacc : isPossibleDesiredAdv s adv = true := by
    cases hI : isPossibleDesiredAdv s adv with
    | true => rfl
    | false =>
      unfold onAdvReceived at hfirst
      rw [hI] at hfirst
      simp at hfirst
  have hfirst2 : updateState (updateAdv s adv t) = (s2, some e) := by
    unfold onAdvReceived at hfirst
    rw [hacc] at hfirst
    simpa using hfirst
  have hs2 : s2 = (updateState (updateAdv s adv t)).1 := by rw [hfirst2]
  have hev : (updateState (updateAdv s adv t)).2 = some e := by rw [hfirst2]
  have hcache2 : s2.cachedState =
      some (computeNewState (updateAdv s adv t).advLeft (updateAdv s adv t).advRight) := by
    rw [hs2]
    exact updateState_event_cachedState _ e hev
  have hacc1 := hacc
  rw [isPossibleDesiredAdv, Bool.and_eq_true, Bool.and_eq_true] at hacc1
  obtain ⟨⟨hrssi, hsame⟩, hother⟩ := hacc1
  have hrssiMin : s2.rssiMin = s.rssiMin := by
    rw [hs2, updateState_rssiMin, updateAdv_rssiMin]
  have hsame2 : sideCache s2 adv.state.side = some (adv, t) := by
    rw [hs2, updateState_sideCache, updateAdv_same]
  have hother2 : sideCache s2 (oppositeSide adv.state.side) =
      sideCache s (oppositeSide adv.state.side) := by
    rw [hs2, updateState_sideCache, updateAdv_other]
  have hacc2 : isPossibleDesiredAdv s2 adv = true := by
    rw [isPossibleDesiredAdv, Bool.and_eq_true, Bool.and_eq_true]
    refine ⟨⟨?_, sameSideCheck_self s2 adv t hsame2⟩, ?_⟩
    · rw [hrssiMin]
      exact hrssi
    · rw [otherSideCheck_congr s2 s adv hother2]
      exact hother
  have hmerge : computeNewState (updateAdv s2 adv t2).advLeft (updateAdv s2 adv t2).advRight =
      computeNewState (updateAdv s adv t).advLeft (updateAdv s adv t).advRight := by
    cases hside : adv.state.side with
    | Left =>
      have e1 : (updateAdv s2 adv t2).advLeft = some (adv, t2) := by
        have := updateAdv_same s2 adv t2
        rw [hside] at this
        exact this
      have e2 : (updateAdv s2 adv t2).advRight = sideCache s Side.Right := by
        have := updateAdv_other s2 adv t2
        rw [hside] at this
        simp only [oppositeSide, sideCache] at this
        rw [this]
        have h2 := hother2
        rw [hside] at h2
        simp only [oppositeSide, sideCache] at h2
        exact h2
      have e3 : (updateAdv s adv t).advLeft = some (adv, t) := by
        have := updateAdv_same s adv t
        rw [hside] at this
        exact this
      have e4 : (updateAdv s adv t).advRight = sideCache s Side.Right := by
        have := updateAdv_other s adv t
        rw [hside] at this
        simpa only [oppositeSide, sideCache] using this
      rw [e1, e2, e3, e4]
      refine computeNewState_refresh_left adv t t2 (sideCache s Side.Right) ?_ ht
      intro a tr hsome
      apply horder a tr
      rw [hside]
      simpa only [oppositeSide] using hsome
    | Right =>
      have e1 : (updateAdv s2 adv t2).advRight = some (adv, t2) := by
        have := updateAdv_same s2 adv t2
        rw [hside] at this
        exact this
      have e2 : (updateAdv s2 adv t2).advLeft = sideCache s Side.Left := by
        have := updateAdv_other s2 adv t2
        rw [hside] at this
        simp only [oppositeSide, sideCache] at this
        rw [this]
        have h2 := hother2
        rw [hside] at h2
        simp only [oppositeSide, sideCache] at h2
        exact h2
      have e3 : (updateAdv s adv t).advRight = some (adv, t) := by
        have := updateAdv_same s adv t
        rw [hside] at this
        exact this
      have e4 : (updateAdv s adv t).advLeft = sideCache s Side.Left := by
        have := updateAdv_other s adv t
        rw [hside] at this
        simpa only [oppositeSide, sideCache] using this
      rw [e1, e2, e3, e4]
      refine computeNewState_refresh_right adv t t2 (sideCache s Side.Left) ?_ ht
      intro a tl hsome
      apply horder a tl
      rw [hside]
      simpa only [oppositeSide] using hsome
  have hcacheU : (updateAdv s2 adv t2).cachedState = s2.cachedState :=
    updateAdv_cachedState s2 adv t2
  have hstable : some (computeNewState (updateAdv s2 adv t2).advLeft
      (updateAdv s2 adv t2).advRight) = (updateAdv s2 adv t2).cachedState := by
    rw [hmerge, hcacheU, hcache2]
  have hsecond : onAdvReceived s2 adv t2 = (updateAdv s2 adv t2, none) := by
    unfold onAdvReceived
    rw [hacc2]
    simp only [if_true]
    exact updateState_noChange _ hstable
  refine ⟨hacc2, ?_, ?_⟩
  · rw [hsecond]
  · rw [hsecond]
    exact hcacheU

/-- C5 witness: the theorem applied to the concrete first acceptance of
c5adv into the empty state at time 1 and its identical repeat at time 2. -/
theorem identical_repeat_no_event_witness :
    isPossibleDesiredAdv c5s1 c5adv = true ∧
    (onAdvReceived c5s1 c5adv 2).2 = none ∧
    (onAdvReceived c5s1 c5adv 2).1.cachedState = c5s1.cachedState :=
  identical_repeat_no_event c5s0 c5adv 1 2 c5s1 c5e (by decide)
    (by
      intro a tr hsome
      simp [c5s0, c5adv, advMk, sideCache, oppositeSide] at hsome)
    (by decide)

end AirPodsCore
